import Mathlib

/-!
Verification of the custom Keras-style layers of this repository against
their natural-language specification.

The embedding models the four custom layers found under
`src/tfjs-layers/src/layers/` (and the divergent copies under `src/unnamed/`):

* `reflection2dPadding` / `ReflectionPadding2D` (reflectionpadding.ts),
* `InstanceNormalization` (instancenormalization.ts),
* `ConditionalInstanceNormalization` (conditionalinstancenormalization.ts),
* `DeprocessStylizedImage` (deprocess.ts and the variant in unnamed/part_001).

Tensors are modelled as a shape together with a total indexing function;
entries outside the shape are junk and no theorem depends on them.  The
external tensor-engine primitives that the code calls (`gather`, `concat`,
`moments`, `dot`, elementwise arithmetic) are embedded by their documented
semantics.  `tfc.sqrt` is kept abstract: every definition that needs it takes
an explicit square-root function `sq : ℚ → ℚ`, and theorems that depend on it
hypothesise only the facts about `sq` that real square root satisfies at the
points where it is applied.
-/

namespace TfjsLayers

/-- A 4-D tensor of shape `[batch, height, width, channels]` (channels-last,
matching the `dim_ordering` the code actually uses).  `data` is total;
values at out-of-range indices are junk. -/
structure Tensor4 (α : Type) where
  batch : Nat
  height : Nat
  width : Nat
  channels : Nat
  data : Nat → Nat → Nat → Nat → α

attribute [ext] Tensor4

/-- `x.gather(indices, 1)`: select rows (axis 1) by an int32 index tensor.
Out-of-range or negative indices are junk (the backend's behaviour there is
unspecified); `Int.toNat` is the junk choice. -/
def Tensor4.gather1 {α : Type} (x : Tensor4 α) (indices : List Int) : Tensor4 α :=
  { x with
    height := indices.length
    data := fun b i j c => x.data b ((indices.getD i 0).toNat) j c }

/-- `x.gather(indices, 2)`: select columns (axis 2) by an int32 index tensor. -/
def Tensor4.gather2 {α : Type} (x : Tensor4 α) (indices : List Int) : Tensor4 α :=
  { x with
    width := indices.length
    data := fun b i j c => x.data b i ((indices.getD j 0).toNat) c }

/-- `tfc.concat([x, y], 1)`: concatenate along the height axis. -/
def Tensor4.concat1 {α : Type} (x y : Tensor4 α) : Tensor4 α :=
  { x with
    height := x.height + y.height
    data := fun b i j c =>
      if i < x.height then x.data b i j c else y.data b (i - x.height) j c }

/-- `tfc.concat([x, y], 2)`: concatenate along the width axis. -/
def Tensor4.concat2 {α : Type} (x y : Tensor4 α) : Tensor4 α :=
  { x with
    width := x.width + y.width
    data := fun b i j c =>
      if j < x.width then x.data b i j c else y.data b i (j - x.width) c }

/-- Elementwise map (embeds `tfc.add`/`tfc.mul` with a scalar operand). -/
def Tensor4.map {α β : Type} (f : α → β) (x : Tensor4 α) : Tensor4 β :=
  { batch := x.batch, height := x.height, width := x.width,
    channels := x.channels, data := fun b i j c => f (x.data b i j c) }

/-- `reflection2dPadding` from reflectionpadding.ts (the gather/concat
variant the spec follows).  Faithful transcription: only `padding[0][0]`
(`paddingNum`) is ever read; the right slice indices are
`width-1, …, width-paddingNum`, the left/top indices are
`paddingNum-1, …, 0`, the bottom indices are
`height+paddingNum-1, …, height` (taken from the already height-padded
intermediate).  A non-positive `paddingNum` makes every index list empty,
exactly as the JS `for` loops would. -/
def reflection2dPadding {α : Type}
    (padding : (Int × Int) × (Int × Int)) (x : Tensor4 α) : Tensor4 α :=
  let paddingNum := padding.1.1
  let width := x.width
  let height := x.height
  let rightIndex : List Int :=
    (List.range paddingNum.toNat).map (fun (i : Nat) => (width : Int) - ((i : Int) + 1))
  let leftTopIndex : List Int :=
    (List.range paddingNum.toNat).map (fun (i : Nat) => paddingNum - 1 - (i : Int))
  let result := Tensor4.concat2 x (Tensor4.gather2 x rightIndex)
  let result := Tensor4.concat2 (Tensor4.gather2 x leftTopIndex) result
  let result := Tensor4.concat1 (Tensor4.gather1 result leftTopIndex) result
  let bottomIndex : List Int :=
    (List.range paddingNum.toNat).map
      (fun (i : Nat) => (height : Int) + paddingNum - ((i : Int) + 1))
  Tensor4.concat1 result (Tensor4.gather1 result bottomIndex)

/-- The `padding` constructor argument of `ReflectionPadding2D`:
absent, a single number, a symmetric `[h, w]` pair, or `[[t,b],[l,r]]`. -/
inductive PaddingArg where
  | omitted : PaddingArg
  | num : Int → PaddingArg
  | pair : Int → Int → PaddingArg
  | pairs : Int × Int → Int × Int → PaddingArg

/-- `ReflectionPadding2D`'s constructor logic for `this.padding`.  It only
normalises the argument's shape (the `ValueError` branches concern JS arrays
of the wrong length, which the typed argument cannot express); it performs no
range validation whatsoever — negative or oversized margins are accepted. -/
def parsePadding : PaddingArg → (Int × Int) × (Int × Int)
  | .omitted => ((1, 1), (1, 1))
  | .num p => ((p, p), (p, p))
  | .pair hp wp => ((hp, hp), (wp, wp))
  | .pairs hp wp => (hp, wp)

/-- `ReflectionPadding2D.call`: pad with the parsed configuration. -/
def reflectionPadding2DCall {α : Type} (arg : PaddingArg) (x : Tensor4 α) :
    Tensor4 α :=
  reflection2dPadding (parsePadding arg) x

/-- `ReflectionPadding2D.computeOutputShape`, on shapes whose entries may be
unknown (`null`).  Mirrors the source: rows/cols become `null` unless the
input dimension is known and non-negative, otherwise both margins of the
corresponding axis are added. -/
def computeOutputShape (padding : (Int × Int) × (Int × Int))
    (inputShape : List (Option Int)) : List (Option Int) :=
  let rows : Option Int :=
    match inputShape.getD 1 none with
    | some v => if 0 ≤ v then some (v + padding.1.1 + padding.1.2) else none
    | none => none
  let cols : Option Int :=
    match inputShape.getD 2 none with
    | some v => if 0 ≤ v then some (v + padding.2.1 + padding.2.2) else none
    | none => none
  [inputShape.getD 0 none, rows, cols, inputShape.getD 3 none]

/-- The index mapping the code actually implements on each padded axis:
output index `t` of an axis of source extent `n` padded by `p` on both sides
maps to source index `p-1-t` on the low rim, `t-p` in the middle and
`2n+p-1-t` on the high rim.  In relative terms `-k ↦ k-1` and
`n-1+k ↦ n-k`: the edge element is duplicated (symmetric padding). -/
def edgeReflect (p n t : Nat) : Nat :=
  if t < p then p - 1 - t
  else if t < p + n then t - p
  else 2 * n + p - 1 - t

/-- Modelled from the spec: the reflection mapping the spec describes, with
no edge duplication — relative index `-k ↦ k` (`k ≥ 1`) and
`n-1+k ↦ n-1-k`.  Stated on output index `t` with left margin `p`:
`p-t` on the low rim, `t-p` in the middle, `2n+p-2-t` on the high rim.
Used only to compare the spec's mapping with the code's `edgeReflect`. -/
def specReflect (p n t : Nat) : Nat :=
  if t < p then p - t
  else if t < p + n then t - p
  else 2 * n + p - 2 - t

/-- `DeprocessStylizedImage.call` from deprocess.ts: returns its input
unchanged, whatever the configured activation. -/
def deprocessCallA {α : Type} (x : Tensor4 α) : Tensor4 α := x

/-- `DeprocessStylizedImage` constructor from deprocess.ts: the activation
defaults to "sigmoid". -/
def deprocessActivationA (activation : Option String) : String :=
  activation.getD "sigmoid"

/-- `DeprocessStylizedImage.call` from unnamed/part_001: in "tanh" mode
`(x + 1.0) * 127.5`, in every other mode `x * 255`. -/
def deprocessCallB (activation : String) (x : Tensor4 ℚ) : Tensor4 ℚ :=
  if activation = "tanh" then x.map (fun v => (v + 1) * 127.5)
  else x.map (fun v => v * 255)

/-- `math_utils.range(0, ndim)` followed by `reductionAxes.splice(axis, 1)`:
the list of axes the moments are taken over.  Note only the (resolved)
channel axis is removed — in particular axis 0 (batch) stays in. -/
def reductionAxes (ndim axis : Nat) : List Nat :=
  (List.range ndim).eraseIdx axis

/-- `this.axis >= 0 ? this.axis : this.axis + ndim`. -/
def resolveAxis (axis : Int) (ndim : Nat) : Nat :=
  if 0 ≤ axis then axis.toNat else (axis + (ndim : Int)).toNat

/-- The coordinate of a 4-D index tuple along a given axis (an axis other
than 0, 1, 2 behaves as the channel axis 3; an out-of-range axis is
ill-formed in the source anyway). -/
def keptCoord (a b i j c : Nat) : Nat :=
  if a = 0 then b else if a = 1 then i else if a = 2 then j else c

/-- Sum of all entries of `x` whose coordinate along axis `a` is `k`
(the inner sum of `tfc.moments(input, reductionAxes)` at kept index `k`:
the reduction runs over every axis except `a`, batch included). -/
def momentsSum (x : Tensor4 ℚ) (a k : Nat) : ℚ :=
  if a = 0 then
    ∑ i in Finset.range x.height, ∑ j in Finset.range x.width,
      ∑ c in Finset.range x.channels, x.data k i j c
  else if a = 1 then
    ∑ b in Finset.range x.batch, ∑ j in Finset.range x.width,
      ∑ c in Finset.range x.channels, x.data b k j c
  else if a = 2 then
    ∑ b in Finset.range x.batch, ∑ i in Finset.range x.height,
      ∑ c in Finset.range x.channels, x.data b i k c
  else
    ∑ b in Finset.range x.batch, ∑ i in Finset.range x.height,
      ∑ j in Finset.range x.width, x.data b i j k

/-- Number of entries reduced over for each kept index. -/
def redCount (x : Tensor4 ℚ) (a : Nat) : Nat :=
  if a = 0 then x.height * x.width * x.channels
  else if a = 1 then x.batch * x.width * x.channels
  else if a = 2 then x.batch * x.height * x.channels
  else x.batch * x.height * x.width

/-- The `mean` component of `tfc.moments(input, reductionAxes)`. -/
def momentsMean (x : Tensor4 ℚ) (a k : Nat) : ℚ :=
  momentsSum x a k / (redCount x a : ℚ)

/-- The elementwise squared deviation from the broadcast mean. -/
def deviationSq (x : Tensor4 ℚ) (a : Nat) : Tensor4 ℚ :=
  { x with data := fun b i j c =>
      (x.data b i j c - momentsMean x a (keptCoord a b i j c)) ^ 2 }

/-- The `variance` component of `tfc.moments(input, reductionAxes)`:
mean of the squared deviation over the same reduction axes. -/
def momentsVariance (x : Tensor4 ℚ) (a k : Nat) : ℚ :=
  momentsSum (deviationSq x a) a k / (redCount x a : ℚ)

/-- Modelled from the spec: per-sample, per-channel mean, reducing over the
spatial axes only (what §4.2 says the statistics should be, "per sample, per
channel, not across the batch").  Used only to compare with the mean the
code actually computes. -/
def specPerSampleMean (x : Tensor4 ℚ) (b k : Nat) : ℚ :=
  (∑ i in Finset.range x.height, ∑ j in Finset.range x.width, x.data b i j k)
    / ((x.height * x.width : Nat) : ℚ)

/-- The state of an `InstanceNormalization` layer after construction and
build: serialization-only fields (initializers, regularizers, constraints)
are omitted; `gamma`/`beta` are the built weight vectors, indexed by the
channel coordinate. -/
structure InstanceNormalization where
  axis : Int
  epsilon : ℚ
  center : Bool
  scale : Bool
  gamma : Nat → ℚ
  beta : Nat → ℚ

/-- The optional constructor arguments of `InstanceNormalization`
(`undefined` fields are `none`). -/
structure InstanceNormalizationArgs where
  axis : Option Int
  epsilon : Option ℚ
  center : Option Bool
  scale : Option Bool

/-- `InstanceNormalization`'s constructor: `axis` defaults to `-1`,
`epsilon` to `1e-3`; `center`/`scale` are stored as given (an `undefined`
flag is falsy at every later use, hence `getD false`). -/
def instanceNormalizationNew (args : Option InstanceNormalizationArgs)
    (gamma beta : Nat → ℚ) : InstanceNormalization :=
  let a := args.getD ⟨none, none, none, none⟩
  { axis := a.axis.getD (-1)
    epsilon := a.epsilon.getD 1e-3
    center := a.center.getD false
    scale := a.scale.getD false
    gamma := gamma
    beta := beta }

/-- `InstanceNormalization.call`.  `sq` embeds the external `tfc.sqrt`.
The moments are taken over `reductionAxes` (all axes except the resolved
channel axis); the broadcast mean/variance/gamma/beta are indexed by the
coordinate along that axis. -/
def InstanceNormalization.call (sq : ℚ → ℚ) (L : InstanceNormalization)
    (x : Tensor4 ℚ) : Tensor4 ℚ :=
  let a := resolveAxis L.axis 4
  { x with data := fun b i j c =>
      let k := keptCoord a b i j c
      let mean := momentsMean x a k
      let variance := momentsVariance x a k
      let stddev := sq variance + L.epsilon
      let normed := (x.data b i j c - mean) / stddev
      let normed1 := if L.scale then normed * L.gamma k else normed
      if L.center then normed1 + L.beta k else normed1 }

/-- `tfc.dot(sw, table)` for a length-`sw.length` vector against a
`(styleCount, channelCount)` table: entry `c` of the vector-matrix
product. -/
def dotVec (sw : List ℚ) (table : Nat → Nat → ℚ) (c : Nat) : ℚ :=
  ∑ s in Finset.range sw.length, sw.getD s 0 * table s c

/-- One-hot selector of length `n` hot at `i`. -/
def oneHot (n i : Nat) : List ℚ :=
  (List.range n).map (fun s => if s = i then 1 else 0)

/-- The state of a `ConditionalInstanceNormalization` layer.
`gammaTable`/`betaTable` are the `(styleCount, channelCount)` weight tables
allocated by `build` when `sw` is set (which `build` always does);
`gamma1`/`beta1` model the 1-D weights of the dead `else` branch. -/
structure ConditionalInstanceNormalization where
  axis : Int
  epsilon : ℚ
  center : Bool
  scale : Bool
  style_num : Option Nat
  gammaTable : Nat → Nat → ℚ
  betaTable : Nat → Nat → ℚ
  gamma1 : Nat → ℚ
  beta1 : Nat → ℚ
  sw : Option (List ℚ)

/-- The optional constructor arguments of `ConditionalInstanceNormalization`. -/
structure ConditionalInstanceNormalizationArgs where
  axis : Option Int
  epsilon : Option ℚ
  center : Option Bool
  scale : Option Bool
  styleNum : Option Nat

/-- `ConditionalInstanceNormalization`'s constructor: same defaults as the
plain layer (`axis = -1`, `epsilon = 1e-3`); `sw` is not yet set. -/
def conditionalInstanceNormalizationNew
    (args : Option ConditionalInstanceNormalizationArgs)
    (gammaTable betaTable : Nat → Nat → ℚ) (gamma1 beta1 : Nat → ℚ) :
    ConditionalInstanceNormalization :=
  let a := args.getD ⟨none, none, none, none, none⟩
  { axis := a.axis.getD (-1)
    epsilon := a.epsilon.getD 1e-3
    center := a.center.getD false
    scale := a.scale.getD false
    style_num := a.styleNum
    gammaTable := gammaTable
    betaTable := betaTable
    gamma1 := gamma1
    beta1 := beta1
    sw := none }

/-- `build`'s selector initialisation: `sw = []`, push `style_num` zeros,
then `sw[0] = 1`.  JS assignment to index 0 of an empty array appends, so an
absent or zero `style_num` still yields `[1]`. -/
def conditionalBuildSw (style_num : Option Nat) : List ℚ :=
  match style_num with
  | none => [1]
  | some n => if n = 0 then [1] else 1 :: List.replicate (n - 1) 0

/-- `ConditionalInstanceNormalization.build`: sets the selector (the weight
allocation itself carries no semantics here). -/
def ConditionalInstanceNormalization.build
    (L : ConditionalInstanceNormalization) : ConditionalInstanceNormalization :=
  { L with sw := some (conditionalBuildSw L.style_num) }

/-- `ConditionalInstanceNormalization.call`.  Standardisation is identical
to the plain layer; then, whenever `sw` is set, `gammaW = dot(sw, gamma)`
and `betaW = dot(sw, beta)` are applied unconditionally — the
`scale`/`center` flags are only consulted in the (dead after build)
`sw == null` branch. -/
def ConditionalInstanceNormalization.call (sq : ℚ → ℚ)
    (L : ConditionalInstanceNormalization) (x : Tensor4 ℚ) : Tensor4 ℚ :=
  let a := resolveAxis L.axis 4
  { x with data := fun b i j c =>
      let k := keptCoord a b i j c
      let mean := momentsMean x a k
      let variance := momentsVariance x a k
      let stddev := sq variance + L.epsilon
      let normed := (x.data b i j c - mean) / stddev
      match L.sw with
      | some sw => normed * dotVec sw L.gammaTable k + dotVec sw L.betaTable k
      | none =>
          let normed1 := if L.scale then normed * L.gamma1 k else normed
          if L.center then normed1 + L.beta1 k else normed1 }

/-- The width stage of `reflection2dPadding` (the first two gather/concat
steps), restated as a standalone function of the single margin `p`; proved
equal to the corresponding slice of `reflection2dPadding` below. -/
def symPadW {α : Type} (p : Nat) (x : Tensor4 α) : Tensor4 α :=
  let rightIndex : List Int :=
    (List.range p).map (fun (i : Nat) => (x.width : Int) - ((i : Int) + 1))
  let leftTopIndex : List Int :=
    (List.range p).map (fun (i : Nat) => (p : Int) - 1 - (i : Int))
  let result := Tensor4.concat2 x (Tensor4.gather2 x rightIndex)
  Tensor4.concat2 (Tensor4.gather2 x leftTopIndex) result

/-- The height stage of `reflection2dPadding` (the last two gather/concat
steps). -/
def symPadH {α : Type} (p : Nat) (x : Tensor4 α) : Tensor4 α :=
  let leftTopIndex : List Int :=
    (List.range p).map (fun (i : Nat) => (p : Int) - 1 - (i : Int))
  let result := Tensor4.concat1 (Tensor4.gather1 x leftTopIndex) x
  let bottomIndex : List Int :=
    (List.range p).map (fun (i : Nat) => (x.height : Int) + (p : Int) - ((i : Int) + 1))
  Tensor4.concat1 result (Tensor4.gather1 result bottomIndex)

/-- A concrete `1×2×2×1` tensor whose entry at column `j` is `j`. -/
def xColIdx : Tensor4 ℚ := ⟨1, 2, 2, 1, fun _ _ j _ => (j : ℚ)⟩

/-- A concrete all-zero `1×4×4×3` tensor. -/
def x44 : Tensor4 ℚ := ⟨1, 4, 4, 3, fun _ _ _ _ => 0⟩

/-- A concrete `2×1×1×1` tensor whose sample `b` holds the value `2*b`. -/
def xBatchPair : Tensor4 ℚ := ⟨2, 1, 1, 1, fun b _ _ _ => 2 * (b : ℚ)⟩

/-- A concrete constant `1×1×1×1` tensor with value `5`. -/
def xConst5 : Tensor4 ℚ := ⟨1, 1, 1, 1, fun _ _ _ _ => 5⟩

theorem getD_range_map (f : Nat → Int) (p m : Nat) (h : m < p) :
    ((List.range p).map f).getD m 0 = f m := by
  simp [List.getD_eq_getElem?_getD, List.getElem?_map, List.getElem?_range, h]

theorem reflection2dPadding_stages {α : Type} (p : Nat) (pb pl pr : Int)
    (x : Tensor4 α) :
    reflection2dPadding (((p : Int), pb), (pl, pr)) x = symPadH p (symPadW p x) :=
  rfl

theorem symPadW_height {α : Type} (p : Nat) (x : Tensor4 α) :
    (symPadW p x).height = x.height := rfl

theorem symPadW_data {α : Type} (p : Nat) (x : Tensor4 α) (hW : p ≤ x.width)
    (b i j c : Nat) (hj : j < x.width + 2 * p) :
    (symPadW p x).data b i j c = x.data b i (edgeReflect p x.width j) c := by
  simp only [symPadW, Tensor4.concat2, Tensor4.gather2, List.length_map,
    List.length_range, edgeReflect]
  by_cases h1 : j < p
  · simp only [if_pos h1, getD_range_map _ _ _ h1]
    congr 1
    omega
  · simp only [if_neg h1]
    by_cases h2 : j - p < x.width
    · simp only [if_pos h2, if_pos (show j < p + x.width by omega)]
    · simp only [if_neg h2, if_neg (show ¬ j < p + x.width by omega),
        getD_range_map _ _ _ (show j - p - x.width < p by omega)]
      congr 1
      omega

theorem symPadH_data {α : Type} (p : Nat) (x : Tensor4 α) (hH : p ≤ x.height)
    (b i j c : Nat) (hi : i < x.height + 2 * p) :
    (symPadH p x).data b i j c = x.data b (edgeReflect p x.height i) j c := by
  simp only [symPadH, Tensor4.concat1, Tensor4.gather1, List.length_map,
    List.length_range, edgeReflect]
  by_cases h1 : i < p
  · simp only [if_pos (show i < p + x.height by omega), if_pos h1,
      getD_range_map _ _ _ h1]
    congr 1
    omega
  · by_cases h2 : i < p + x.height
    · simp only [if_pos h2, if_neg h1]
    · have hm : i - (p + x.height) < p := by omega
      simp only [if_neg h2, if_neg h1, getD_range_map _ _ _ hm]
      have htn : ((x.height : Int) + (p : Int)
            - ((↑(i - (p + x.height)) : Int) + 1)).toNat
          = x.height + p - (i - (p + x.height)) - 1 := by omega
      rw [htn]
      simp only [if_neg (show ¬ x.height + p - (i - (p + x.height)) - 1 < p by
        omega)]
      congr 1
      omega

theorem reflection2dPadding_data {α : Type} (p : Nat) (pb pl pr : Int)
    (x : Tensor4 α) (hH : p ≤ x.height) (hW : p ≤ x.width)
    (b i j c : Nat) (hi : i < x.height + 2 * p) (hj : j < x.width + 2 * p) :
    (reflection2dPadding (((p : Int), pb), (pl, pr)) x).data b i j c
      = x.data b (edgeReflect p x.height i) (edgeReflect p x.width j) c := by
  rw [reflection2dPadding_stages]
  rw [symPadH_data p (symPadW p x) (by rw [symPadW_height]; exact hH) b i j c
    (by rw [symPadW_height]; omega)]
  rw [symPadW_height]
  exact symPadW_data p x hW b _ j c hj

theorem reflection2dPadding_shape {α : Type} (p : Nat) (pb pl pr : Int)
    (x : Tensor4 α) :
    (reflection2dPadding (((p : Int), pb), (pl, pr)) x).batch = x.batch ∧
    (reflection2dPadding (((p : Int), pb), (pl, pr)) x).height
      = x.height + 2 * p ∧
    (reflection2dPadding (((p : Int), pb), (pl, pr)) x).width
      = x.width + 2 * p ∧
    (reflection2dPadding (((p : Int), pb), (pl, pr)) x).channels = x.channels := by
  refine ⟨rfl, ?_, ?_, rfl⟩ <;>
  · simp [reflection2dPadding, Tensor4.concat1, Tensor4.concat2,
      Tensor4.gather1, Tensor4.gather2]
    omega

/-- C1 (counterexample): the spec's reflection mapping (no edge duplication)
is not what the code computes.  For a `1×2×2×1` input with entries `0, 1`
along the width axis and margins all `1`, output column `0` has relative
index `-1`, which the claim sends to source column `specReflect 1 2 0 = 1`
(value `1`); the code instead yields value `0` — it duplicates the edge
column. -/
theorem claim_C1_counterexample :
    (reflection2dPadding ((1, 1), (1, 1)) xColIdx).data 0 1 0 0
      ≠ xColIdx.data 0 1 (specReflect 1 2 0) 0 := by decide

/-- C1 (amended): for any valid margins, every entry of the output of
`reflection2dPadding` equals the input entry at row `edgeReflect p H i` and
column `edgeReflect p W j`, where `p` is `padding[0][0]` (the code applies
this single margin to all four sides) and `edgeReflect` is the
edge-duplicating mirror `-k ↦ k-1`, `n-1+k ↦ n-k`.  The row and column
mappings act independently, so padding the two axes in either order yields
this same result. -/
theorem claim_C1_amended {α : Type} (p : Nat) (pb pl pr : Int)
    (x : Tensor4 α) (hH : p < x.height) (hW : p < x.width)
    (b i j c : Nat) (hi : i < x.height + 2 * p) (hj : j < x.width + 2 * p) :
    (reflection2dPadding (((p : Int), pb), (pl, pr)) x).data b i j c
      = x.data b (edgeReflect p x.height i) (edgeReflect p x.width j) c :=
  reflection2dPadding_data p pb pl pr x (le_of_lt hH) (le_of_lt hW) b i j c hi hj

/-- C1 (witness): the amended mapping, instantiated on the concrete
`1×2×2×1` tensor with margins `1` at output cell `(0, 1, 2, 0)`. -/
theorem claim_C1_witness :
    1 < xColIdx.height ∧ 1 < xColIdx.width ∧
    (reflection2dPadding ((1, 1), (1, 1)) xColIdx).data 0 1 2 0
      = xColIdx.data 0 (edgeReflect 1 xColIdx.height 1)
          (edgeReflect 1 xColIdx.width 2) 0 :=
  ⟨by decide, by decide,
    claim_C1_amended 1 1 1 1 xColIdx (by decide) (by decide) 0 1 2 0
      (by decide) (by decide)⟩

/-- C3: the forward call is NOT consistent with `computeOutputShape` for
distinct margins.  On a `1×4×4×3` input with `padding = [[1,0],[2,3]]` (all
margins valid), the call produces a `6×6` spatial output — it applies
`padding[0][0] = 1` to all four sides — while `computeOutputShape` declares
`[1, 4+1+0, 4+2+3, 3] = [1, 5, 9, 3]`. -/
theorem claim_C3 :
    (reflection2dPadding ((1, 0), (2, 3)) x44).height = 6 ∧
    (reflection2dPadding ((1, 0), (2, 3)) x44).width = 6 ∧
    computeOutputShape ((1, 0), (2, 3)) [some 1, some 4, some 4, some 3]
      = [some 1, some 5, some 9, some 3] := by decide

/-- C4 (counterexample): a negative margin does not raise any error — the
code silently clamps it to zero padding.  With `padding = [[-1,-1],[-1,-1]]`
(also reachable through the constructor as `parsePadding (.num (-1))`), the
output has the input's shape and, at the in-range cell `(0,0,1,0)`, the
input's value. -/
theorem claim_C4_counterexample :
    parsePadding (.num (-1)) = ((-1, -1), (-1, -1)) ∧
    (reflection2dPadding ((-1, -1), (-1, -1)) xColIdx).height = xColIdx.height ∧
    (reflection2dPadding ((-1, -1), (-1, -1)) xColIdx).width = xColIdx.width ∧
    (reflection2dPadding ((-1, -1), (-1, -1)) xColIdx).data 0 0 1 0
      = xColIdx.data 0 0 1 0 := by decide

/-- C4 (amended): neither the constructor nor `reflection2dPadding`
validates margins against the input extents; there is no `InvalidPadding`
error anywhere.  The constructor accepts any integer margin unchanged, and a
non-positive `paddingNum` is silently treated as zero padding: the output
has the input's shape and agrees with the input on every in-range index. -/
theorem claim_C4_amended {α : Type} (p pb pl pr : Int) (hp : p ≤ 0)
    (x : Tensor4 α) :
    parsePadding (.num p) = ((p, p), (p, p)) ∧
    (reflection2dPadding ((p, pb), (pl, pr)) x).batch = x.batch ∧
    (reflection2dPadding ((p, pb), (pl, pr)) x).height = x.height ∧
    (reflection2dPadding ((p, pb), (pl, pr)) x).width = x.width ∧
    (reflection2dPadding ((p, pb), (pl, pr)) x).channels = x.channels ∧
    ∀ b i j c, i < x.height → j < x.width →
      (reflection2dPadding ((p, pb), (pl, pr)) x).data b i j c
        = x.data b i j c := by
  have h0 : p.toNat = 0 := by omega
  refine ⟨rfl, ?_, ?_, ?_, ?_, ?_⟩ <;>
    simp [reflection2dPadding, h0, Tensor4.concat1, Tensor4.concat2,
      Tensor4.gather1, Tensor4.gather2]
  intro b i j c hi hj
  simp [hi, hj]

/-- C4 (witness): the amended statement at margin `-1` on the concrete
`1×2×2×1` tensor. -/
theorem claim_C4_witness :
    (-1 : Int) ≤ 0 ∧
    (parsePadding (.num (-1)) = ((-1, -1), (-1, -1)) ∧
     (reflection2dPadding ((-1, -1), (-1, -1)) xColIdx).batch = xColIdx.batch ∧
     (reflection2dPadding ((-1, -1), (-1, -1)) xColIdx).height = xColIdx.height ∧
     (reflection2dPadding ((-1, -1), (-1, -1)) xColIdx).width = xColIdx.width ∧
     (reflection2dPadding ((-1, -1), (-1, -1)) xColIdx).channels
       = xColIdx.channels ∧
     ∀ b i j c, i < xColIdx.height → j < xColIdx.width →
       (reflection2dPadding ((-1, -1), (-1, -1)) xColIdx).data b i j c
         = xColIdx.data b i j c) :=
  ⟨by decide, claim_C4_amended (-1) (-1) (-1) (-1) (by decide) xColIdx⟩

/-- C8: the mirror property holds on both axes of the padded output: with
`p = padding[0][0]`, output column `p-1-k` equals output column `p+k` and
output row `p-1-k` equals output row `p+k`, for every `k < p` and every
in-range cell.  (The code's left margin equals `p`, so this is the claim's
`left-1-k` / `left+k`.) -/
theorem claim_C8 {α : Type} (p : Nat) (pb pl pr : Int) (x : Tensor4 α)
    (k b i j c : Nat) (hk : k < p) (hH : p ≤ x.height) (hW : p ≤ x.width)
    (hi : i < x.height + 2 * p) (hj : j < x.width + 2 * p) :
    (reflection2dPadding (((p : Int), pb), (pl, pr)) x).data b i (p - 1 - k) c
      = (reflection2dPadding (((p : Int), pb), (pl, pr)) x).data b i (p + k) c ∧
    (reflection2dPadding (((p : Int), pb), (pl, pr)) x).data b (p - 1 - k) j c
      = (reflection2dPadding (((p : Int), pb), (pl, pr)) x).data b (p + k) j c := by
  constructor
  · rw [reflection2dPadding_data p pb pl pr x hH hW b i (p - 1 - k) c hi
      (by omega)]
    rw [reflection2dPadding_data p pb pl pr x hH hW b i (p + k) c hi
      (by omega)]
    have hcol : edgeReflect p x.width (p - 1 - k) = edgeReflect p x.width (p + k) := by
      unfold edgeReflect
      split_ifs <;> omega
    rw [hcol]
  · rw [reflection2dPadding_data p pb pl pr x hH hW b (p - 1 - k) j c
      (by omega) hj]
    rw [reflection2dPadding_data p pb pl pr x hH hW b (p + k) j c
      (by omega) hj]
    have hrow : edgeReflect p x.height (p - 1 - k) = edgeReflect p x.height (p + k) := by
      unfold edgeReflect
      split_ifs <;> omega
    rw [hrow]

/-- C8 (witness): the mirror property at `p = 1`, `k = 0` on the concrete
`1×2×2×1` tensor. -/
theorem claim_C8_witness :
    0 < 1 ∧ 1 ≤ xColIdx.height ∧ 1 ≤ xColIdx.width ∧
    ((reflection2dPadding ((1, 1), (1, 1)) xColIdx).data 0 0 0 0
       = (reflection2dPadding ((1, 1), (1, 1)) xColIdx).data 0 0 1 0 ∧
     (reflection2dPadding ((1, 1), (1, 1)) xColIdx).data 0 0 0 0
       = (reflection2dPadding ((1, 1), (1, 1)) xColIdx).data 0 1 0 0) :=
  ⟨by decide, by decide, by decide,
    claim_C8 1 1 1 1 xColIdx 0 0 0 0 0 (by decide) (by decide) (by decide)
      (by decide) (by decide)⟩

theorem getD_range_map_gen {α : Type} (f : Nat → α) (d : α) (p m : Nat)
    (h : m < p) : ((List.range p).map f).getD m d = f m := by
  simp [List.getD_eq_getElem?_getD, List.getElem?_map, List.getElem?_range, h]

theorem triple_sum_standardize (B H W : Nat) (f : Nat → Nat → Nat → ℚ)
    (m s : ℚ) :
    (∑ b in Finset.range B, ∑ i in Finset.range H, ∑ j in Finset.range W,
      (f b i j - m) / s)
    = ((∑ b in Finset.range B, ∑ i in Finset.range H, ∑ j in Finset.range W,
        f b i j) - (B * H * W : ℚ) * m) / s := by
  simp only [sub_div, Finset.sum_sub_distrib, Finset.sum_div, Finset.sum_const,
    Finset.card_range, nsmul_eq_mul]
  ring

theorem triple_sum_sq_div (B H W : Nat) (f : Nat → Nat → Nat → ℚ) (s : ℚ) :
    (∑ b in Finset.range B, ∑ i in Finset.range H, ∑ j in Finset.range W,
      (f b i j / s) ^ 2)
    = (∑ b in Finset.range B, ∑ i in Finset.range H, ∑ j in Finset.range W,
        f b i j ^ 2) / s ^ 2 := by
  simp [div_pow, Finset.sum_div]

theorem dotVec_oneHot (n i : Nat) (hi : i < n) (table : Nat → Nat → ℚ)
    (c : Nat) : dotVec (oneHot n i) table c = table i c := by
  unfold dotVec oneHot
  rw [List.length_map, List.length_range]
  rw [Finset.sum_congr rfl (fun s hs => by
    rw [getD_range_map_gen _ _ _ _ (Finset.mem_range.mp hs)])]
  simp only [ite_mul, one_mul, zero_mul]
  simp [Finset.sum_ite_eq', hi]

theorem conditionalBuildSw_oneHot (n : Nat) (hn : 1 ≤ n) :
    conditionalBuildSw (some n) = oneHot n 0 := by
  obtain ⟨m, rfl⟩ : ∃ m, n = m + 1 := ⟨n - 1, by omega⟩
  unfold conditionalBuildSw oneHot
  simp only [List.range_succ_eq_map, List.map_map, List.map_cons,
    Nat.add_eq_zero, if_pos rfl]
  rw [show ((fun s => if s = 0 then (1 : ℚ) else 0) ∘ Nat.succ)
      = fun _ => (0 : ℚ) from funext fun s => by simp]
  simp [List.map_const', List.length_range]

/-- C2 (counterexample): the statistics are aggregated across the batch.
For the `2×1×1×1` input with samples `0` and `2`, the mean the call uses is
`1` (the batch-wide average), not the per-sample mean `0` of sample `0`; the
forward output at sample `0` is `(0-1)/(sqrt(1)+1) = -1/2` instead of the
`0` that per-sample statistics would give. -/
theorem claim_C2_counterexample :
    momentsMean xBatchPair 3 0 = 1 ∧
    specPerSampleMean xBatchPair 0 0 = 0 ∧
    (InstanceNormalization.call id ⟨-1, 1, false, false, fun _ => 1, fun _ => 0⟩
      xBatchPair).data 0 0 0 0 = -(1/2) := by
  refine ⟨?_, ?_, ?_⟩
  · norm_num [momentsMean, momentsSum, redCount, xBatchPair,
      Finset.sum_range_succ]
  · norm_num [specPerSampleMean, xBatchPair, Finset.sum_range_succ]
  · norm_num [InstanceNormalization.call, resolveAxis, keptCoord, momentsMean,
      momentsSum, momentsVariance, deviationSq, redCount, xBatchPair,
      Finset.sum_range_succ]

/-- C2 (amended): `reductionAxes` removes only the resolved channel axis, so
axis 0 (batch) is reduced over, and the per-channel mean the call uses
equals the average over the batch of the per-sample means — the statistics
are aggregated across the batch, not computed per sample. -/
theorem claim_C2_amended (x : Tensor4 ℚ) (k : Nat) :
    0 ∈ reductionAxes 4 (resolveAxis (-1) 4) ∧
    momentsMean x 3 k
      = (∑ b in Finset.range x.batch, specPerSampleMean x b k)
          / (x.batch : ℚ) := by
  constructor
  · decide
  · unfold momentsMean momentsSum redCount specPerSampleMean
    norm_num
    rw [← Finset.sum_div, div_div]
    congr 1
    ring

theorem standardized_mean_zero (x : Tensor4 ℚ) (t : Nat → ℚ) (k : Nat)
    (hN : ((redCount x 3 : Nat) : ℚ) ≠ 0) :
    momentsMean
      { x with data := fun b i j c =>
          (x.data b i j c - momentsMean x 3 c) / t c } 3 k = 0 := by
  have hD : ((x.batch : ℚ) * x.height * x.width) ≠ 0 := by
    have hN2 : ((x.batch * x.height * x.width : Nat) : ℚ) ≠ 0 := hN
    push_cast at hN2
    exact hN2
  have hmm : momentsMean x 3 k
      = (∑ b in Finset.range x.batch, ∑ i in Finset.range x.height,
          ∑ j in Finset.range x.width, x.data b i j k)
        / ((x.batch : ℚ) * x.height * x.width) := by
    show momentsSum x 3 k / ((redCount x 3 : Nat) : ℚ) = _
    congr 1
    show ((x.batch * x.height * x.width : Nat) : ℚ) = _
    push_cast
    ring
  have hnum : (∑ b in Finset.range x.batch, ∑ i in Finset.range x.height,
      ∑ j in Finset.range x.width, x.data b i j k)
      - ((x.batch : ℚ) * x.height * x.width) * momentsMean x 3 k = 0 := by
    rw [hmm, mul_comm, div_mul_cancel₀ _ hD, sub_self]
  have h1 : momentsMean
      { x with data := fun b i j c =>
          (x.data b i j c - momentsMean x 3 c) / t c } 3 k
      = (((∑ b in Finset.range x.batch, ∑ i in Finset.range x.height,
            ∑ j in Finset.range x.width, x.data b i j k)
          - ((x.batch : ℚ) * x.height * x.width) * momentsMean x 3 k) / t k)
        / ((redCount x 3 : Nat) : ℚ) := by
    show (∑ b in Finset.range x.batch, ∑ i in Finset.range x.height,
        ∑ j in Finset.range x.width,
        (x.data b i j k - momentsMean x 3 k) / t k)
      / ((redCount x 3 : Nat) : ℚ) = _
    rw [triple_sum_standardize]
  rw [h1, hnum, zero_div, zero_div]

theorem standardized_variance_one (x : Tensor4 ℚ) (t : Nat → ℚ) (k : Nat)
    (ht : t k ^ 2 = momentsVariance x 3 k)
    (hv : momentsVariance x 3 k ≠ 0) :
    momentsVariance
      { x with data := fun b i j c =>
          (x.data b i j c - momentsMean x 3 c) / t c } 3 k = 1 := by
  have hN : ((redCount x 3 : Nat) : ℚ) ≠ 0 := by
    intro h
    apply hv
    unfold momentsVariance
    rw [h, div_zero]
  have h0 := standardized_mean_zero x t k hN
  have hS : momentsSum (deviationSq x 3) 3 k
      = momentsVariance x 3 k * ((redCount x 3 : Nat) : ℚ) := by
    unfold momentsVariance
    rw [div_mul_cancel₀ _ hN]
  have h1 : momentsVariance
      { x with data := fun b i j c =>
          (x.data b i j c - momentsMean x 3 c) / t c } 3 k
      = (∑ b in Finset.range x.batch, ∑ i in Finset.range x.height,
          ∑ j in Finset.range x.width,
          ((x.data b i j k - momentsMean x 3 k) / t k
            - momentsMean
                { x with data := fun b i j c =>
                    (x.data b i j c - momentsMean x 3 c) / t c } 3 k) ^ 2)
        / ((redCount x 3 : Nat) : ℚ) := rfl
  rw [h1, h0]
  simp only [sub_zero]
  rw [triple_sum_sq_div]
  rw [show (∑ b in Finset.range x.batch, ∑ i in Finset.range x.height,
      ∑ j in Finset.range x.width,
      (x.data b i j k - momentsMean x 3 k) ^ 2)
    = momentsVariance x 3 k * ((redCount x 3 : Nat) : ℚ) from hS]
  rw [ht]
  rw [mul_comm, mul_div_assoc, div_self hv, mul_one, div_self hN]

theorem resolveAxis_neg_one : resolveAxis (-1) 4 = 3 := rfl

/-- C7 (counterexample): on a constant input the variance is `0`, so with
`epsilon = 0` the standardized output is `0/0 = 0` everywhere and its
variance is `0`, not `1` — the claim's "exactly unit variance for every
input" fails.  (`id` agrees with square root at `0`, the only point where
the call evaluates it here.) -/
theorem claim_C7_counterexample :
    momentsVariance (InstanceNormalization.call id
      ⟨-1, 0, true, true, fun _ => 1, fun _ => 0⟩ xConst5) 3 0 = 0 := by
  norm_num [InstanceNormalization.call, resolveAxis, keptCoord, momentsMean,
    momentsSum, momentsVariance, deviationSq, redCount, xConst5,
    Finset.sum_range_succ]

/-- C7 (amended): the standardized value is `(x - mean) / (sq variance +
epsilon)` — epsilon is added to the square root of the variance, after the
root; and, provided the variance over the reduced axes is nonzero at the
channel in question (and `sq` is exact there), the output with `gamma = 1`,
`beta = 0`, `epsilon = 0` has exactly zero mean and unit variance over the
reduced axes at that channel. -/
theorem claim_C7 (sq : ℚ → ℚ) (x : Tensor4 ℚ) (k : Nat) (eps : ℚ)
    (g bt : Nat → ℚ)
    (hsq : sq (momentsVariance x 3 k) ^ 2 = momentsVariance x 3 k)
    (hv : momentsVariance x 3 k ≠ 0) :
    (∀ b i j c,
      (InstanceNormalization.call sq ⟨-1, eps, false, false, g, bt⟩ x).data
          b i j c
        = (x.data b i j c - momentsMean x 3 c)
            / (sq (momentsVariance x 3 c) + eps)) ∧
    momentsMean (InstanceNormalization.call sq
      ⟨-1, 0, true, true, fun _ => 1, fun _ => 0⟩ x) 3 k = 0 ∧
    momentsVariance (InstanceNormalization.call sq
      ⟨-1, 0, true, true, fun _ => 1, fun _ => 0⟩ x) 3 k = 1 := by
  have hN : ((redCount x 3 : Nat) : ℚ) ≠ 0 := by
    intro h
    apply hv
    unfold momentsVariance
    rw [h, div_zero]
  have hcall : InstanceNormalization.call sq
      ⟨-1, 0, true, true, fun _ => 1, fun _ => 0⟩ x
      = { x with data := fun b i j c =>
          (x.data b i j c - momentsMean x 3 c)
            / (sq (momentsVariance x 3 c)) } := by
    refine Tensor4.ext rfl rfl rfl rfl ?_
    funext b i j c
    norm_num [InstanceNormalization.call, resolveAxis_neg_one, keptCoord]
  refine ⟨?_, ?_, ?_⟩
  · intro b i j c
    norm_num [InstanceNormalization.call, resolveAxis_neg_one, keptCoord]
  · rw [hcall]
    exact standardized_mean_zero x (fun c => sq (momentsVariance x 3 c)) k hN
  · rw [hcall]
    exact standardized_variance_one x (fun c => sq (momentsVariance x 3 c)) k
      hsq hv

/-- C7 (witness): the amended statement at the `2×1×1×1` input whose channel
`0` has variance exactly `1` (samples `0` and `2`), with `sq = id`, which is
exact at `1`. -/
theorem claim_C7_witness :
    (id (momentsVariance xBatchPair 3 0) ^ 2 = momentsVariance xBatchPair 3 0
      ∧ momentsVariance xBatchPair 3 0 ≠ 0) ∧
    ((∀ b i j c,
      (InstanceNormalization.call id
          ⟨-1, 1, false, false, fun _ => 1, fun _ => 0⟩ xBatchPair).data
          b i j c
        = (xBatchPair.data b i j c - momentsMean xBatchPair 3 c)
            / (id (momentsVariance xBatchPair 3 c) + 1)) ∧
    momentsMean (InstanceNormalization.call id
      ⟨-1, 0, true, true, fun _ => 1, fun _ => 0⟩ xBatchPair) 3 0 = 0 ∧
    momentsVariance (InstanceNormalization.call id
      ⟨-1, 0, true, true, fun _ => 1, fun _ => 0⟩ xBatchPair) 3 0 = 1) :=
  ⟨⟨by norm_num [momentsVariance, deviationSq, momentsMean, momentsSum,
        redCount, keptCoord, xBatchPair, Finset.sum_range_succ],
    by norm_num [momentsVariance, deviationSq, momentsMean, momentsSum,
        redCount, keptCoord, xBatchPair, Finset.sum_range_succ]⟩,
   claim_C7 id xBatchPair 0 1 (fun _ => 1) (fun _ => 0)
    (by norm_num [momentsVariance, deviationSq, momentsMean, momentsSum,
        redCount, keptCoord, xBatchPair, Finset.sum_range_succ])
    (by norm_num [momentsVariance, deviationSq, momentsMean, momentsSum,
        redCount, keptCoord, xBatchPair, Finset.sum_range_succ])⟩

/-- C5: with a one-hot selector at style `i`, the effective parameters are
row `i` of the tables (`dot(selector, table) = table[i]`), the conditional
forward pass equals plain instance normalization with `scale` and `center`
enabled and `gamma`/`beta` set to row `i`, and the selector that `build`
installs (also for a default-constructed layer, where `style_num` is absent
and the built selector is `[1]`) is one-hot at index `0`. -/
theorem claim_C5 (sq : ℚ → ℚ) (n i : Nat) (hi : i < n) (hn : 1 ≤ n)
    (gT bT : Nat → Nat → ℚ) (g1 b1 : Nat → ℚ) (eps : ℚ) (sc ce : Bool)
    (sn : Option Nat) (x : Tensor4 ℚ) :
    (∀ c, dotVec (oneHot n i) gT c = gT i c) ∧
    (∀ c, dotVec (oneHot n i) bT c = bT i c) ∧
    ConditionalInstanceNormalization.call sq
      ⟨-1, eps, ce, sc, sn, gT, bT, g1, b1, some (oneHot n i)⟩ x
      = InstanceNormalization.call sq ⟨-1, eps, true, true, gT i, bT i⟩ x ∧
    conditionalBuildSw (some n) = oneHot n 0 ∧
    (conditionalInstanceNormalizationNew none gT bT g1 b1).build.sw
      = some (oneHot 1 0) := by
  refine ⟨fun c => dotVec_oneHot n i hi gT c, fun c => dotVec_oneHot n i hi bT c,
    ?_, conditionalBuildSw_oneHot n hn, ?_⟩
  · refine Tensor4.ext rfl rfl rfl rfl ?_
    funext b i' j c
    norm_num [ConditionalInstanceNormalization.call, InstanceNormalization.call,
      resolveAxis_neg_one, keptCoord, dotVec_oneHot n i hi]
  · simp [ConditionalInstanceNormalization.build,
      conditionalInstanceNormalizationNew, conditionalBuildSw, oneHot,
      List.range_succ]

/-- C5 (witness): the equivalence at `n = 2`, `i = 1` with constant tables
on the concrete constant input. -/
theorem claim_C5_witness :
    ((1 : Nat) < 2 ∧ (1 : Nat) ≤ 2) ∧
    ((∀ c, dotVec (oneHot 2 1) (fun _ _ => (2 : ℚ)) c = 2) ∧
    (∀ c, dotVec (oneHot 2 1) (fun _ _ => (3 : ℚ)) c = 3) ∧
    ConditionalInstanceNormalization.call id
      ⟨-1, 1, false, false, none, fun _ _ => 2, fun _ _ => 3, fun _ => 0,
        fun _ => 0, some (oneHot 2 1)⟩ xConst5
      = InstanceNormalization.call id
          ⟨-1, 1, true, true, fun _ => 2, fun _ => 3⟩ xConst5 ∧
    conditionalBuildSw (some 2) = oneHot 2 0 ∧
    (conditionalInstanceNormalizationNew none (fun _ _ => (2 : ℚ))
      (fun _ _ => (3 : ℚ)) (fun _ => 0) (fun _ => 0)).build.sw
      = some (oneHot 1 0)) :=
  ⟨⟨by decide, by decide⟩,
   claim_C5 id 2 1 (by decide) (by decide) (fun _ _ => 2) (fun _ _ => 3)
     (fun _ => 0) (fun _ => 0) 1 false false none xConst5⟩

/-- C9 (counterexample): in the conditional forward pass the beta table
affects the output even though `center = false`: two configurations that
differ only in the beta table (rows all `5` versus all `0`), both with
`center = false` and `scale = false`, give outputs `5` and `0` at the same
cell — beta is applied although centering is disabled. -/
theorem claim_C9_counterexample :
    (ConditionalInstanceNormalization.call id
      ⟨-1, 1, false, false, some 1, fun _ _ => 2, fun _ _ => 5, fun _ => 0,
        fun _ => 0, some [1]⟩ xConst5).data 0 0 0 0 = 5 ∧
    (ConditionalInstanceNormalization.call id
      ⟨-1, 1, false, false, some 1, fun _ _ => 2, fun _ _ => 0, fun _ => 0,
        fun _ => 0, some [1]⟩ xConst5).data 0 0 0 0 = 0 := by
  constructor <;>
    norm_num [ConditionalInstanceNormalization.call, resolveAxis, keptCoord,
      momentsMean, momentsSum, momentsVariance, deviationSq, redCount,
      dotVec, xConst5, Finset.sum_range_succ]

/-- C9 (amended): in the plain forward pass the toggles hold and are
independent — the output ignores `gamma` when `scale` is off and ignores
`beta` when `center` is off, while an enabled toggle is applied regardless
of the other toggle's state; in the conditional forward pass, once the
selector is set (as `build` always does) both the gamma and the beta
re-parameterisation are applied unconditionally and the `scale`/`center`
flags are ignored entirely. -/
theorem claim_C9_amended (sq : ℚ → ℚ) (ax : Int) (eps : ℚ) (sn : Option Nat)
    (x : Tensor4 ℚ) :
    (∀ (g g' bt : Nat → ℚ) (ce : Bool),
      InstanceNormalization.call sq ⟨ax, eps, ce, false, g, bt⟩ x
        = InstanceNormalization.call sq ⟨ax, eps, ce, false, g', bt⟩ x) ∧
    (∀ (g bt bt' : Nat → ℚ) (sc : Bool),
      InstanceNormalization.call sq ⟨ax, eps, false, sc, g, bt⟩ x
        = InstanceNormalization.call sq ⟨ax, eps, false, sc, g, bt'⟩ x) ∧
    (∀ (g bt : Nat → ℚ) (b i j c : Nat),
      (InstanceNormalization.call sq ⟨-1, eps, false, true, g, bt⟩ x).data
          b i j c
        = (x.data b i j c - momentsMean x 3 c)
            / (sq (momentsVariance x 3 c) + eps) * g c) ∧
    (∀ (g bt : Nat → ℚ) (b i j c : Nat),
      (InstanceNormalization.call sq ⟨-1, eps, true, false, g, bt⟩ x).data
          b i j c
        = (x.data b i j c - momentsMean x 3 c)
            / (sq (momentsVariance x 3 c) + eps) + bt c) ∧
    (∀ (gT bT : Nat → Nat → ℚ) (g1 b1 : Nat → ℚ) (s : List ℚ)
        (sc ce sc2 ce2 : Bool),
      ConditionalInstanceNormalization.call sq
        ⟨ax, eps, ce, sc, sn, gT, bT, g1, b1, some s⟩ x
        = ConditionalInstanceNormalization.call sq
            ⟨ax, eps, ce2, sc2, sn, gT, bT, g1, b1, some s⟩ x) ∧
    (∀ (gT bT : Nat → Nat → ℚ) (g1 b1 : Nat → ℚ) (s : List ℚ) (sc ce : Bool)
        (b i j c : Nat),
      (ConditionalInstanceNormalization.call sq
        ⟨-1, eps, ce, sc, sn, gT, bT, g1, b1, some s⟩ x).data b i j c
        = (x.data b i j c - momentsMean x 3 c)
            / (sq (momentsVariance x 3 c) + eps) * dotVec s gT c
          + dotVec s bT c) := by
  refine ⟨?_, ?_, ?_, ?_, ?_, ?_⟩
  · intro g g' bt ce
    refine Tensor4.ext rfl rfl rfl rfl ?_
    funext b i j c
    simp [InstanceNormalization.call]
  · intro g bt bt' sc
    refine Tensor4.ext rfl rfl rfl rfl ?_
    funext b i j c
    simp [InstanceNormalization.call]
  · intro g bt b i j c
    norm_num [InstanceNormalization.call, resolveAxis_neg_one, keptCoord]
  · intro g bt b i j c
    norm_num [InstanceNormalization.call, resolveAxis_neg_one, keptCoord]
  · intro gT bT g1 b1 s sc ce sc2 ce2
    refine Tensor4.ext rfl rfl rfl rfl ?_
    funext b i j c
    simp [ConditionalInstanceNormalization.call]
  · intro gT bT g1 b1 s sc ce b i j c
    norm_num [ConditionalInstanceNormalization.call, resolveAxis_neg_one,
      keptCoord]

/-- C10: both constructors default `axis` to `-1` and `epsilon` to `1e-3`
when the arguments are absent, and a default-constructed layer's forward
pass uses exactly these values: the statistics are indexed by the last axis
(the resolved `-1`) and the denominator is `sq variance + 1e-3`. -/
theorem claim_C10 (g bt : Nat → ℚ) (gT bT : Nat → Nat → ℚ)
    (g1 b1 : Nat → ℚ) :
    (instanceNormalizationNew none g bt).axis = -1 ∧
    (instanceNormalizationNew none g bt).epsilon = 1e-3 ∧
    (conditionalInstanceNormalizationNew none gT bT g1 b1).axis = -1 ∧
    (conditionalInstanceNormalizationNew none gT bT g1 b1).epsilon = 1e-3 ∧
    (∀ (sq : ℚ → ℚ) (x : Tensor4 ℚ) (b i j c : Nat),
      (InstanceNormalization.call sq (instanceNormalizationNew none g bt)
          x).data b i j c
        = (x.data b i j c - momentsMean x 3 c)
            / (sq (momentsVariance x 3 c) + 1e-3)) := by
  refine ⟨rfl, rfl, rfl, rfl, ?_⟩
  intro sq x b i j c
  norm_num [InstanceNormalization.call, instanceNormalizationNew,
    resolveAxis_neg_one, keptCoord]

/-- C6 (counterexample): neither deprocess implementation matches the claim.
The variant in unnamed/part_001 maps a "sigmoid"-mode input `5` to
`5 * 255 = 1275`, not to `5` (it is not the identity); the variant in
deprocess.ts returns the input unchanged even in "tanh" mode, so `5` stays
`5` instead of becoming `(5+1) * 127.5`. -/
theorem claim_C6_counterexample :
    (deprocessCallB "sigmoid" xConst5).data 0 0 0 0 ≠ xConst5.data 0 0 0 0 ∧
    (deprocessCallA xConst5).data 0 0 0 0
      ≠ (xConst5.data 0 0 0 0 + 1) * 127.5 := by
  have hs : ¬ ("sigmoid" : String) = "tanh" := by decide
  constructor <;> norm_num [deprocessCallA, deprocessCallB, Tensor4.map,
    xConst5, hs]

/-- C6 (amended): the deprocess.ts call is the identity for every
configured mode (whose default is "sigmoid"); the unnamed/part_001 call
maps `x` to `(x + 1) * 127.5` in "tanh" mode and to `x * 255` in every
other mode, including "sigmoid"; both preserve the shape, and no mode value
raises any error (`InvalidConfig` does not exist). -/
theorem claim_C6_amended (mode : String) (x : Tensor4 ℚ)
    (hm : mode ≠ "tanh") :
    deprocessCallA x = x ∧
    deprocessActivationA none = "sigmoid" ∧
    (∀ b i j c, (deprocessCallB "tanh" x).data b i j c
      = (x.data b i j c + 1) * 127.5) ∧
    (∀ b i j c, (deprocessCallB mode x).data b i j c
      = x.data b i j c * 255) ∧
    (deprocessCallB mode x).batch = x.batch ∧
    (deprocessCallB mode x).height = x.height ∧
    (deprocessCallB mode x).width = x.width ∧
    (deprocessCallB mode x).channels = x.channels := by
  refine ⟨rfl, rfl, ?_, ?_, ?_, ?_, ?_, ?_⟩ <;>
    simp [deprocessCallB, Tensor4.map, hm]

/-- C6 (witness): the amended statement at mode "sigmoid" on the concrete
constant input. -/
theorem claim_C6_witness :
    ("sigmoid" ≠ "tanh") ∧
    (deprocessCallA xConst5 = xConst5 ∧
    deprocessActivationA none = "sigmoid" ∧
    (∀ b i j c, (deprocessCallB "tanh" xConst5).data b i j c
      = (xConst5.data b i j c + 1) * 127.5) ∧
    (∀ b i j c, (deprocessCallB "sigmoid" xConst5).data b i j c
      = xConst5.data b i j c * 255) ∧
    (deprocessCallB "sigmoid" xConst5).batch = xConst5.batch ∧
    (deprocessCallB "sigmoid" xConst5).height = xConst5.height ∧
    (deprocessCallB "sigmoid" xConst5).width = xConst5.width ∧
    (deprocessCallB "sigmoid" xConst5).channels = xConst5.channels) :=
  ⟨by decide, claim_C6_amended "sigmoid" xConst5 (by decide)⟩
